import Mathlib

/-!
Verification development for the PartyView room-signalling server
(repository ServidorSocket).

The server keeps an in-memory registry of video-call rooms
(a JS Map from room id to a room object holding lifecycle state,
capacity, a video flag, the host, the host socket, a Map of guests
keyed by uid, and a Set of blocked uids).  Connections interact with
the registry through message handlers; each handler may mutate the
registry and emits WebSocket messages (and socket closes) as side
effects.

We embed the registry as an association list with JS-Map semantics
(unique keys; set replaces in place, otherwise appends), the block set
as a list with JS-Set semantics, and each handler as a pure function
from registry and arguments to the updated registry paired with the
list of emitted transport events.  Firebase mirroring and console
logging are outside the in-memory model and are not represented.

The primary implementation is the one in src/unnamed/part_000
(handleCrearSala, handleUnirseSala, handleExpulsar, handleBloquear,
handleSalirSala, handleCambiarCapacidad, handleCambiarEstado,
handleSignal, notifyRoomUpdate).  src/server.js contains two further
variants; where they diverge from part_000 we embed the divergent
functions separately (handleJoinRoomV1 and handleLeaveRoomV1 from the
minimal first variant, handleKickV2 from the second variant).
-/

/-- A connected user as carried in message payloads: an externally
issued uid plus display attributes (we keep the name). -/
structure Persona where
  uid : String
  nombre : String
  deriving DecidableEq

/-- A guest entry of a room: the persona plus its transport handle.
Sockets are modelled by numeric identifiers. -/
structure Guest where
  persona : Persona
  socket : Nat
  deriving DecidableEq

/-- Outbound message kinds, mirroring the JSON objects the handlers
send (type field plus the payload relevant to the claims). -/
inductive Msg where
  | error (message : String)
  | salaCreada (id : String)
  | invitadoUnido (contenido : Persona)
  | unidoCorrectamente (salaId : String)
  | invitadoExpulsadoBloqueado (uidExpulsado : String)
  | invitadoExpulsadoHost (uidExpulsado : String)
  | expulsado
  | salisteSala
  | salioAnfitrion
  | invitadoSalioMsg (uid : String)
  | actualizacionSala
  | signalMsg (fromUid : String) (signalData : String)
  | invitadoJoin (persona : Persona)
  deriving DecidableEq

/-- A transport-level side effect performed by a handler: sending a
message on a socket, or force-closing a socket. -/
inductive Event where
  | send (socket : Nat) (msg : Msg)
  | close (socket : Nat)
  deriving DecidableEq

/-- Lookup in a JS Map represented as an association list
(Map.prototype.get). -/
def mget {α : Type} : List (String × α) → String → Option α
  | [], _ => none
  | p :: rest, k => if p.1 = k then some p.2 else mget rest k

/-- Insertion/update in a JS Map: replace the entry in place if the
key is present, otherwise append (Map.prototype.set, which preserves
insertion order). -/
def mset {α : Type} : List (String × α) → String → α → List (String × α)
  | [], k, v => [(k, v)]
  | p :: rest, k, v => if p.1 = k then (k, v) :: rest else p :: mset rest k v

/-- Deletion from a JS Map (Map.prototype.delete).  On the unique-key
lists produced by mset this removes exactly the entry with the given
key, and it is the identity when the key is absent. -/
def mdel {α : Type} : List (String × α) → String → List (String × α)
  | [], _ => []
  | p :: rest, k => if p.1 = k then mdel rest k else p :: mdel rest k

/-- Addition to a JS Set represented as a list (Set.prototype.add:
no-op when the element is already present). -/
def sadd (s : List String) (x : String) : List String :=
  if x ∈ s then s else s ++ [x]

/-- One room of the server: lifecycle state string, capacity, video
flag, host persona, host socket, guest Map keyed by uid, blocked-uid
Set. -/
structure Room where
  estado : String
  capacidad : Int
  video : Bool
  anfitrion : Persona
  anfitrionSocket : Nat
  invitados : List (String × Guest)
  bloqueados : List String
  deriving DecidableEq

/-- The in-memory registry: the global Map from room id to room. -/
abbrev Registry := List (String × Room)

/-- Payload of a crear-sala message: room id, initial state, capacity,
a video field (read but ignored: the handler stores video = false) and
the host persona. -/
structure CrearData where
  id : String
  estado : String
  capacidad : Int
  video : Bool
  anfitrion : Persona
  deriving DecidableEq

/-- handleCrearSala from part_000: reject with an error if the room id
is already taken, otherwise register a fresh room (empty guest Map,
empty block Set, video false) and confirm to the creating socket. -/
def handleCrearSala (st : Registry) (d : CrearData) (socket : Nat) :
    Registry × List Event :=
  if (mget st d.id).isSome then
    (st, [Event.send socket (Msg.error "Sala ya existe")])
  else
    (mset st d.id
      { estado := d.estado, capacidad := d.capacidad, video := false,
        anfitrion := d.anfitrion, anfitrionSocket := socket,
        invitados := [], bloqueados := [] },
     [Event.send socket (Msg.salaCreada d.id)])

/-- handleUnirseSala from part_000: joining an existing room.  Checks,
in source order: unknown room, blocked uid, guest count at or above
capacity.  On success the persona is stored in the guest Map under its
uid (overwriting any previous entry for that uid), the host is
notified, the joiner is confirmed, and every guest of the updated Map
other than the joiner is notified (the source iterates the Map after
the set, skipping the joining uid). -/
def handleUnirseSala (st : Registry) (salaId : String) (persona : Persona)
    (socket : Nat) : Registry × List Event :=
  match mget st salaId with
  | none => (st, [Event.send socket (Msg.error "Sala no existe")])
  | some room =>
    if persona.uid ∈ room.bloqueados then
      (st, [Event.send socket (Msg.error "Usuario bloqueado")])
    else if room.capacidad ≤ (room.invitados.length : Int) then
      (st, [Event.send socket (Msg.error "Sala llena")])
    else
      let room2 := { room with
        invitados := mset room.invitados persona.uid ⟨persona, socket⟩ }
      (mset st salaId room2,
        Event.send room.anfitrionSocket (Msg.invitadoUnido persona)
          :: Event.send socket (Msg.unidoCorrectamente salaId)
          :: (room2.invitados.filter (fun p => p.1 ≠ persona.uid)).map
               (fun p => Event.send p.2.socket (Msg.invitadoUnido persona)))

/-- handleExpulsar from part_000: silently return if the room or the
guest is unknown; otherwise notify every other guest, notify the
expelled guest, close its socket, and delete it from the guest Map.
The host is not notified by this variant. -/
def handleExpulsar (st : Registry) (salaId uid : String) :
    Registry × List Event :=
  match mget st salaId with
  | none => (st, [])
  | some room =>
    match mget room.invitados uid with
    | none => (st, [])
    | some invitado =>
      (mset st salaId { room with invitados := mdel room.invitados uid },
        (room.invitados.filter (fun p => p.1 ≠ uid)).map
            (fun p => Event.send p.2.socket (Msg.invitadoExpulsadoBloqueado uid))
          ++ [Event.send invitado.socket Msg.expulsado,
              Event.close invitado.socket])

/-- handleBloquear from part_000: silently return if the room is
unknown; otherwise add the uid to the block Set and then run
handleExpulsar on the same room and uid (which expels the uid if it is
currently a guest and otherwise does nothing). -/
def handleBloquear (st : Registry) (salaId uid : String) :
    Registry × List Event :=
  match mget st salaId with
  | none => (st, [])
  | some room =>
    handleExpulsar
      (mset st salaId { room with bloqueados := sadd room.bloqueados uid })
      salaId uid

/-- handleSalirSala from part_000: silently return if the room is
unknown.  If the leaving uid is the host's, notify every guest that
the host left, close every guest socket, and delete the room from the
registry.  Otherwise notify and close the leaving guest (when
present), notify the host, notify every other guest, and delete the
uid from the guest Map. -/
def handleSalirSala (st : Registry) (salaId uid : String) :
    Registry × List Event :=
  match mget st salaId with
  | none => (st, [])
  | some room =>
    if room.anfitrion.uid = uid then
      (mdel st salaId,
        room.invitados.flatMap (fun p =>
          [Event.send p.2.socket Msg.salioAnfitrion, Event.close p.2.socket]))
    else
      (mset st salaId { room with invitados := mdel room.invitados uid },
        (match mget room.invitados uid with
          | some invitado =>
              [Event.send invitado.socket Msg.salisteSala,
               Event.close invitado.socket]
          | none => [])
          ++ [Event.send room.anfitrionSocket (Msg.invitadoSalioMsg uid)]
          ++ (room.invitados.filter (fun p => p.1 ≠ uid)).map
               (fun p => Event.send p.2.socket (Msg.invitadoSalioMsg uid)))

/-- notifyRoomUpdate from part_000: send an actualizacion-sala message
to every guest of the room (the host is not notified). -/
def notifyRoomUpdate (room : Room) : List Event :=
  room.invitados.map (fun p => Event.send p.2.socket Msg.actualizacionSala)

/-- handleCambiarCapacidad from part_000: silently return if the room
is unknown; otherwise set capacity to max(1, capacity + delta) and
notify every guest of the update.  The dispatcher calls it with
delta = 1 for subir-capacidad and delta = -1 for bajar-capacidad. -/
def handleCambiarCapacidad (st : Registry) (salaId : String) (delta : Int) :
    Registry × List Event :=
  match mget st salaId with
  | none => (st, [])
  | some room =>
    let room2 := { room with capacidad := max 1 (room.capacidad + delta) }
    (mset st salaId room2, notifyRoomUpdate room2)

/-- handleCambiarEstado from part_000: silently return if the room is
unknown; otherwise store the new state string and notify every guest
of the update. -/
def handleCambiarEstado (st : Registry) (salaId nuevoEstado : String) :
    Registry × List Event :=
  match mget st salaId with
  | none => (st, [])
  | some room =>
    let room2 := { room with estado := nuevoEstado }
    (mset st salaId room2, notifyRoomUpdate room2)

/-- handleSignal from part_000: silently return if the room is
unknown; resolve the target uid against host-or-guest and forward the
opaque payload, dropping it silently when the target is absent. -/
def handleSignal (st : Registry) (salaId fromUid toUid signalData : String) :
    Registry × List Event :=
  match mget st salaId with
  | none => (st, [])
  | some room =>
    let target : Option Nat :=
      if room.anfitrion.uid = toUid then some room.anfitrionSocket
      else (mget room.invitados toUid).map (fun g => g.socket)
    match target with
    | some s => (st, [Event.send s (Msg.signalMsg fromUid signalData)])
    | none => (st, [])

/-- handleJoinRoom from the first src/server.js variant (the room id
is resolved from the roomId or id field before the call).  Same
admission checks as handleUnirseSala, but on success it notifies only
the host: the joiner gets no confirmation and existing guests are not
told. -/
def handleJoinRoomV1 (st : Registry) (rid : String) (persona : Persona)
    (socket : Nat) : Registry × List Event :=
  match mget st rid with
  | none => (st, [Event.send socket (Msg.error "Sala no existe")])
  | some room =>
    if persona.uid ∈ room.bloqueados then
      (st, [Event.send socket (Msg.error "Estas bloqueado")])
    else if room.capacidad ≤ (room.invitados.length : Int) then
      (st, [Event.send socket (Msg.error "Sala llena")])
    else
      (mset st rid { room with
         invitados := mset room.invitados persona.uid ⟨persona, socket⟩ },
       [Event.send room.anfitrionSocket (Msg.invitadoJoin persona)])

/-- handleLeaveRoom from the first src/server.js variant: silently
return if the room is unknown; otherwise just delete the uid from the
guest Map.  There is no host branch: the room is never destroyed and
nobody is notified or closed. -/
def handleLeaveRoomV1 (st : Registry) (roomId uid : String) :
    Registry × List Event :=
  match mget st roomId with
  | none => (st, [])
  | some room =>
    (mset st roomId { room with invitados := mdel room.invitados uid }, [])

/-- handleKick from the second src/server.js variant: like part_000's
handleExpulsar, but additionally sends the host one
invitado-expulsado message carrying the expelled uid. -/
def handleKickV2 (st : Registry) (salaId uid : String) :
    Registry × List Event :=
  match mget st salaId with
  | none => (st, [])
  | some room =>
    match mget room.invitados uid with
    | none => (st, [])
    | some guest =>
      (mset st salaId { room with invitados := mdel room.invitados uid },
        (room.invitados.filter (fun p => p.1 ≠ uid)).map
            (fun p => Event.send p.2.socket (Msg.invitadoExpulsadoBloqueado uid))
          ++ [Event.send room.anfitrionSocket (Msg.invitadoExpulsadoHost uid)]
          ++ [Event.send guest.socket Msg.expulsado,
              Event.close guest.socket])

/-- The operations over which reachability of registry states is
quantified: the dispatcher cases crear-sala, unirse-sala,
abandonar-sala, expulsar-invitado, bloquear-invitado, subir-capacidad,
bajar-capacidad and cambiar-estado of part_000. -/
inductive Op where
  | crear (d : CrearData) (sock : Nat)
  | unirse (salaId : String) (persona : Persona) (sock : Nat)
  | salir (salaId uid : String)
  | expulsar (salaId uid : String)
  | bloquear (salaId uid : String)
  | subirCapacidad (salaId : String)
  | bajarCapacidad (salaId : String)
  | cambiarEstado (salaId : String) (nuevo : String)

/-- Registry effect of one dispatched operation. -/
def step (st : Registry) : Op → Registry
  | .crear d sock => (handleCrearSala st d sock).1
  | .unirse salaId persona sock => (handleUnirseSala st salaId persona sock).1
  | .salir salaId uid => (handleSalirSala st salaId uid).1
  | .expulsar salaId uid => (handleExpulsar st salaId uid).1
  | .bloquear salaId uid => (handleBloquear st salaId uid).1
  | .subirCapacidad salaId => (handleCambiarCapacidad st salaId 1).1
  | .bajarCapacidad salaId => (handleCambiarCapacidad st salaId (-1)).1
  | .cambiarEstado salaId nuevo => (handleCambiarEstado st salaId nuevo).1

/-- Registry reached by a sequence of operations from the empty
registry. -/
def run (ops : List Op) : Registry :=
  ops.foldl step []

/-! ### Association-list (JS Map) and list-set (JS Set) lemmas -/

theorem mget_mem {α : Type} {m : List (String × α)} {k : String} {v : α}
    (h : mget m k = some v) : (k, v) ∈ m := by
  induction m with
  | nil => simp [mget] at h
  | cons q rest ih =>
    rw [mget] at h
    by_cases hq : q.1 = k
    · rw [if_pos hq] at h
      injection h with h
      subst hq; subst h
      exact List.mem_cons_self _ _
    · rw [if_neg hq] at h
      exact List.mem_cons_of_mem _ (ih h)

theorem mget_eq_none {α : Type} {m : List (String × α)} {k : String}
    (h : mget m k = none) : ∀ p ∈ m, p.1 ≠ k := by
  induction m with
  | nil => simp
  | cons q rest ih =>
    rw [mget] at h
    by_cases hq : q.1 = k
    · rw [if_pos hq] at h; exact absurd h (by simp)
    · rw [if_neg hq] at h
      intro p hp
      rcases List.mem_cons.mp hp with h1 | h1
      · subst h1; exact hq
      · exact ih h p h1

theorem mem_mset {α : Type} {m : List (String × α)} {k : String} {v : α}
    {p : String × α} (hp : p ∈ mset m k v) : p ∈ m ∨ p = (k, v) := by
  induction m with
  | nil =>
    simp [mset] at hp
    right; exact hp
  | cons q rest ih =>
    rw [mset] at hp
    by_cases hq : q.1 = k
    · rw [if_pos hq] at hp
      rcases List.mem_cons.mp hp with h1 | h1
      · right; exact h1
      · left; exact List.mem_cons_of_mem _ h1
    · rw [if_neg hq] at hp
      rcases List.mem_cons.mp hp with h1 | h1
      · left; subst h1; exact List.mem_cons_self _ _
      · rcases ih h1 with h2 | h2
        · left; exact List.mem_cons_of_mem _ h2
        · right; exact h2

theorem mem_mset_of_ne {α : Type} {m : List (String × α)} {k : String} {v : α}
    {p : String × α} (hp : p ∈ m) (hk : p.1 ≠ k) : p ∈ mset m k v := by
  induction m with
  | nil => simp at hp
  | cons q rest ih =>
    rw [mset]
    by_cases hq : q.1 = k
    · rw [if_pos hq]
      rcases List.mem_cons.mp hp with h1 | h1
      · subst h1; exact absurd hq hk
      · exact List.mem_cons_of_mem _ h1
    · rw [if_neg hq]
      rcases List.mem_cons.mp hp with h1 | h1
      · subst h1; exact List.mem_cons_self _ _
      · exact List.mem_cons_of_mem _ (ih h1)

theorem mget_mset_self {α : Type} (m : List (String × α)) (k : String) (v : α) :
    mget (mset m k v) k = some v := by
  induction m with
  | nil => simp [mset, mget]
  | cons q rest ih =>
    rw [mset]
    by_cases hq : q.1 = k
    · rw [if_pos hq]; simp [mget]
    · rw [if_neg hq, mget, if_neg hq]; exact ih

theorem mset_mset_same {α : Type} (m : List (String × α)) (k : String) (v w : α) :
    mset (mset m k v) k w = mset m k w := by
  induction m with
  | nil => simp [mset]
  | cons q rest ih =>
    by_cases hq : q.1 = k
    · simp [mset, hq]
    · simp [mset, hq, ih]

theorem mem_mdel {α : Type} {m : List (String × α)} {k : String}
    {p : String × α} (hp : p ∈ mdel m k) : p ∈ m ∧ p.1 ≠ k := by
  induction m with
  | nil => simp [mdel] at hp
  | cons q rest ih =>
    rw [mdel] at hp
    by_cases hq : q.1 = k
    · rw [if_pos hq] at hp
      obtain ⟨h1, h2⟩ := ih hp
      exact ⟨List.mem_cons_of_mem _ h1, h2⟩
    · rw [if_neg hq] at hp
      rcases List.mem_cons.mp hp with h1 | h1
      · subst h1; exact ⟨List.mem_cons_self _ _, hq⟩
      · obtain ⟨h2, h3⟩ := ih h1
        exact ⟨List.mem_cons_of_mem _ h2, h3⟩

theorem mget_mdel_self {α : Type} (m : List (String × α)) (k : String) :
    mget (mdel m k) k = none := by
  induction m with
  | nil => simp [mdel, mget]
  | cons q rest ih =>
    rw [mdel]
    by_cases hq : q.1 = k
    · rw [if_pos hq]; exact ih
    · rw [if_neg hq, mget, if_neg hq]; exact ih

theorem mdel_eq_self {α : Type} {m : List (String × α)} {k : String}
    (h : mget m k = none) : mdel m k = m := by
  induction m with
  | nil => rfl
  | cons q rest ih =>
    rw [mget] at h
    by_cases hq : q.1 = k
    · rw [if_pos hq] at h; exact absurd h (by simp)
    · rw [if_neg hq] at h
      rw [mdel, if_neg hq, ih h]

theorem length_mset {α : Type} {m : List (String × α)} {k : String} {v : α}
    (h : mget m k = some v) (w : α) : (mset m k w).length = m.length := by
  induction m with
  | nil => simp [mget] at h
  | cons q rest ih =>
    rw [mget] at h
    by_cases hq : q.1 = k
    · rw [mset, if_pos hq]; simp
    · rw [if_neg hq] at h
      rw [mset, if_neg hq]
      simp [ih h]

theorem mem_sadd_self (s : List String) (x : String) : x ∈ sadd s x := by
  unfold sadd
  by_cases h : x ∈ s
  · rwa [if_pos h]
  · rw [if_neg h]; simp

theorem mem_sadd {s : List String} {x y : String} (h : y ∈ sadd s x) :
    y ∈ s ∨ y = x := by
  unfold sadd at h
  by_cases hx : x ∈ s
  · rw [if_pos hx] at h; left; exact h
  · rw [if_neg hx] at h
    rcases List.mem_append.mp h with h1 | h1
    · left; exact h1
    · right; simpa using h1

theorem mem_sadd_of_mem {s : List String} {x y : String} (h : y ∈ s) :
    y ∈ sadd s x := by
  unfold sadd
  by_cases hx : x ∈ s
  · rwa [if_pos hx]
  · rw [if_neg hx]; exact List.mem_append_left _ h

/-! ### Handler equation lemmas -/

theorem handleCrearSala_exists {st : Registry} {d : CrearData}
    (h : (mget st d.id).isSome) (sock : Nat) :
    handleCrearSala st d sock
      = (st, [Event.send sock (Msg.error "Sala ya existe")]) := by
  unfold handleCrearSala
  rw [if_pos h]

theorem handleUnirseSala_none {st : Registry} {salaId : String}
    (h : mget st salaId = none) (persona : Persona) (sock : Nat) :
    handleUnirseSala st salaId persona sock
      = (st, [Event.send sock (Msg.error "Sala no existe")]) := by
  unfold handleUnirseSala
  rw [h]

theorem handleUnirseSala_blocked {st : Registry} {salaId : String} {room : Room}
    (hm : mget st salaId = some room) {persona : Persona}
    (hb : persona.uid ∈ room.bloqueados) (sock : Nat) :
    handleUnirseSala st salaId persona sock
      = (st, [Event.send sock (Msg.error "Usuario bloqueado")]) := by
  unfold handleUnirseSala
  rw [hm]
  simp [hb]

theorem handleUnirseSala_full {st : Registry} {salaId : String} {room : Room}
    (hm : mget st salaId = some room) {persona : Persona}
    (hb : persona.uid ∉ room.bloqueados)
    (hc : room.capacidad ≤ (room.invitados.length : Int)) (sock : Nat) :
    handleUnirseSala st salaId persona sock
      = (st, [Event.send sock (Msg.error "Sala llena")]) := by
  unfold handleUnirseSala
  rw [hm]
  simp [hb, hc]

theorem handleUnirseSala_ok {st : Registry} {salaId : String} {room : Room}
    (hm : mget st salaId = some room) {persona : Persona}
    (hb : persona.uid ∉ room.bloqueados)
    (hc : (room.invitados.length : Int) < room.capacidad) (sock : Nat) :
    handleUnirseSala st salaId persona sock
      = (mset st salaId { room with
           invitados := mset room.invitados persona.uid ⟨persona, sock⟩ },
         Event.send room.anfitrionSocket (Msg.invitadoUnido persona)
           :: Event.send sock (Msg.unidoCorrectamente salaId)
           :: ((mset room.invitados persona.uid ⟨persona, sock⟩).filter
                 (fun p => p.1 ≠ persona.uid)).map
                (fun p => Event.send p.2.socket (Msg.invitadoUnido persona))) := by
  unfold handleUnirseSala
  rw [hm]
  simp [hb, not_le.mpr hc]

theorem handleExpulsar_noRoom {st : Registry} {salaId : String}
    (h : mget st salaId = none) (uid : String) :
    handleExpulsar st salaId uid = (st, []) := by
  unfold handleExpulsar
  rw [h]

theorem handleExpulsar_noGuest {st : Registry} {salaId : String} {room : Room}
    (hm : mget st salaId = some room) {uid : String}
    (hg : mget room.invitados uid = none) :
    handleExpulsar st salaId uid = (st, []) := by
  unfold handleExpulsar
  rw [hm]
  simp [hg]

theorem handleExpulsar_guest {st : Registry} {salaId : String} {room : Room}
    (hm : mget st salaId = some room) {uid : String} {invitado : Guest}
    (hg : mget room.invitados uid = some invitado) :
    handleExpulsar st salaId uid
      = (mset st salaId { room with invitados := mdel room.invitados uid },
         (room.invitados.filter (fun p => p.1 ≠ uid)).map
             (fun p => Event.send p.2.socket (Msg.invitadoExpulsadoBloqueado uid))
           ++ [Event.send invitado.socket Msg.expulsado,
               Event.close invitado.socket]) := by
  unfold handleExpulsar
  rw [hm]
  simp [hg]

theorem handleBloquear_noRoom {st : Registry} {salaId : String}
    (h : mget st salaId = none) (uid : String) :
    handleBloquear st salaId uid = (st, []) := by
  unfold handleBloquear
  rw [h]

theorem handleBloquear_eq {st : Registry} {salaId : String} {room : Room}
    (hm : mget st salaId = some room) (uid : String) :
    handleBloquear st salaId uid
      = handleExpulsar
          (mset st salaId { room with bloqueados := sadd room.bloqueados uid })
          salaId uid := by
  unfold handleBloquear
  rw [hm]

theorem handleSalirSala_noRoom {st : Registry} {salaId : String}
    (h : mget st salaId = none) (uid : String) :
    handleSalirSala st salaId uid = (st, []) := by
  unfold handleSalirSala
  rw [h]

theorem handleSalirSala_host {st : Registry} {salaId : String} {room : Room}
    (hm : mget st salaId = some room) {uid : String}
    (hh : room.anfitrion.uid = uid) :
    handleSalirSala st salaId uid
      = (mdel st salaId,
         room.invitados.flatMap (fun p =>
           [Event.send p.2.socket Msg.salioAnfitrion,
            Event.close p.2.socket])) := by
  unfold handleSalirSala
  rw [hm]
  simp [hh]

theorem handleSalirSala_guest {st : Registry} {salaId : String} {room : Room}
    (hm : mget st salaId = some room) {uid : String}
    (hh : room.anfitrion.uid ≠ uid) :
    handleSalirSala st salaId uid
      = (mset st salaId { room with invitados := mdel room.invitados uid },
         (match mget room.invitados uid with
           | some invitado =>
               [Event.send invitado.socket Msg.salisteSala,
                Event.close invitado.socket]
           | none => [])
           ++ [Event.send room.anfitrionSocket (Msg.invitadoSalioMsg uid)]
           ++ (room.invitados.filter (fun p => p.1 ≠ uid)).map
                (fun p => Event.send p.2.socket (Msg.invitadoSalioMsg uid))) := by
  unfold handleSalirSala
  rw [hm]
  simp [hh]

theorem handleCambiarCapacidad_noRoom {st : Registry} {salaId : String}
    (h : mget st salaId = none) (delta : Int) :
    handleCambiarCapacidad st salaId delta = (st, []) := by
  unfold handleCambiarCapacidad
  rw [h]

theorem handleCambiarCapacidad_some {st : Registry} {salaId : String}
    {room : Room} (hm : mget st salaId = some room) (delta : Int) :
    handleCambiarCapacidad st salaId delta
      = (mset st salaId { room with capacidad := max 1 (room.capacidad + delta) },
         notifyRoomUpdate { room with
           capacidad := max 1 (room.capacidad + delta) }) := by
  unfold handleCambiarCapacidad
  rw [hm]

theorem handleCambiarEstado_noRoom {st : Registry} {salaId : String}
    (h : mget st salaId = none) (nuevo : String) :
    handleCambiarEstado st salaId nuevo = (st, []) := by
  unfold handleCambiarEstado
  rw [h]

theorem handleCambiarEstado_some {st : Registry} {salaId : String}
    {room : Room} (hm : mget st salaId = some room) (nuevo : String) :
    handleCambiarEstado st salaId nuevo
      = (mset st salaId { room with estado := nuevo },
         notifyRoomUpdate { room with estado := nuevo }) := by
  unfold handleCambiarEstado
  rw [hm]

theorem handleSignal_noRoom {st : Registry} {salaId : String}
    (h : mget st salaId = none) (fromUid toUid signalData : String) :
    handleSignal st salaId fromUid toUid signalData = (st, []) := by
  unfold handleSignal
  rw [h]

theorem handleSignal_fst {st : Registry} (salaId fromUid toUid signalData : String) :
    (handleSignal st salaId fromUid toUid signalData).1 = st := by
  unfold handleSignal
  cases h : mget st salaId with
  | none => rfl
  | some room =>
    dsimp only
    by_cases hq : room.anfitrion.uid = toUid
    · simp [hq]
    · simp only [if_neg hq]
      cases hg : mget room.invitados toUid with
      | none => simp
      | some g => simp

theorem handleLeaveRoomV1_some {st : Registry} {roomId : String} {room : Room}
    (hm : mget st roomId = some room) (uid : String) :
    handleLeaveRoomV1 st roomId uid
      = (mset st roomId { room with invitados := mdel room.invitados uid },
         []) := by
  unfold handleLeaveRoomV1
  rw [hm]

theorem handleJoinRoomV1_ok {st : Registry} {rid : String} {room : Room}
    (hm : mget st rid = some room) {persona : Persona}
    (hb : persona.uid ∉ room.bloqueados)
    (hc : (room.invitados.length : Int) < room.capacidad) (sock : Nat) :
    handleJoinRoomV1 st rid persona sock
      = (mset st rid { room with
           invitados := mset room.invitados persona.uid ⟨persona, sock⟩ },
         [Event.send room.anfitrionSocket (Msg.invitadoJoin persona)]) := by
  unfold handleJoinRoomV1
  rw [hm]
  simp [hb, not_le.mpr hc]

theorem handleKickV2_guest {st : Registry} {salaId : String} {room : Room}
    (hm : mget st salaId = some room) {uid : String} {guest : Guest}
    (hg : mget room.invitados uid = some guest) :
    handleKickV2 st salaId uid
      = (mset st salaId { room with invitados := mdel room.invitados uid },
         (room.invitados.filter (fun p => p.1 ≠ uid)).map
             (fun p => Event.send p.2.socket (Msg.invitadoExpulsadoBloqueado uid))
           ++ [Event.send room.anfitrionSocket (Msg.invitadoExpulsadoHost uid)]
           ++ [Event.send guest.socket Msg.expulsado,
               Event.close guest.socket]) := by
  unfold handleKickV2
  rw [hm]
  simp [hg]

/-! ### C1: the spec's three-part room invariant -/

/-- The three-part room invariant asserted by the spec: guest count at
most capacity, the host's uid is not a guest key, and no blocked uid
is a guest key. -/
def ClaimedRoomInv (r : Room) : Prop :=
  (r.invitados.length : Int) ≤ r.capacidad
  ∧ (∀ g ∈ r.invitados, g.1 ≠ r.anfitrion.uid)
  ∧ (∀ b ∈ r.bloqueados, ∀ g ∈ r.invitados, g.1 ≠ b)

instance (r : Room) : Decidable (ClaimedRoomInv r) := by
  unfold ClaimedRoomInv; infer_instance

/-- The spec's invariant asserted of every room of the registry. -/
def ClaimedRegInv (st : Registry) : Prop :=
  ∀ p ∈ st, ClaimedRoomInv p.2

instance (st : Registry) : Decidable (ClaimedRegInv st) := by
  unfold ClaimedRegInv; infer_instance

/-- Operation sequence reaching a room that breaks two conjuncts of
the claimed invariant: the host of room r joins its own room as a
guest (nothing in handleUnirseSala compares the joining uid with the
host uid), and bajar-capacidad afterwards lowers the capacity from 2
to 1 while two guests are present. -/
def c1ops : List Op :=
  [Op.crear ⟨"r", "waiting", 2, false, ⟨"h", "H"⟩⟩ 0,
   Op.unirse "r" ⟨"h", "H"⟩ 1,
   Op.unirse "r" ⟨"g", "G"⟩ 2,
   Op.bajarCapacidad "r"]

/-- C1 (counterexample): the registry reached from the empty registry
by c1ops violates the claimed invariant — room r ends with guest keys
h and g, capacity 1 (so the guest count 2 exceeds the capacity) and
with the host uid h among the guest keys. -/
theorem C1_counterexample : ¬ ClaimedRegInv (run c1ops) := by decide

/-- The surviving conjunct of the room invariant: no blocked uid is
simultaneously a key of the guest Map. -/
def BlockedDisjoint (r : Room) : Prop :=
  ∀ b ∈ r.bloqueados, ∀ g ∈ r.invitados, g.1 ≠ b

/-- The surviving invariant asserted of every room of the registry. -/
def RegBlockedDisjoint (st : Registry) : Prop :=
  ∀ p ∈ st, BlockedDisjoint p.2

/-- One dispatched operation preserves the blocked-guest
disjointness of every room. -/
theorem blockedDisjoint_step {st : Registry} (h : RegBlockedDisjoint st)
    (op : Op) : RegBlockedDisjoint (step st op) := by
  cases op with
  | crear d sock =>
    show RegBlockedDisjoint (handleCrearSala st d sock).1
    unfold handleCrearSala
    by_cases hex : (mget st d.id).isSome
    · rw [if_pos hex]; exact h
    · rw [if_neg hex]
      intro p hp
      rcases mem_mset hp with h1 | h1
      · exact h p h1
      · rw [h1]
        intro b hb
        simp at hb
  | unirse salaId persona sock =>
    show RegBlockedDisjoint (handleUnirseSala st salaId persona sock).1
    cases hm : mget st salaId with
    | none => rw [handleUnirseSala_none hm]; exact h
    | some room =>
      by_cases hb : persona.uid ∈ room.bloqueados
      · rw [handleUnirseSala_blocked hm hb]; exact h
      · by_cases hc : room.capacidad ≤ (room.invitados.length : Int)
        · rw [handleUnirseSala_full hm hb hc]; exact h
        · rw [handleUnirseSala_ok hm hb (not_le.mp hc)]
          intro p hp
          rcases mem_mset hp with h1 | h1
          · exact h p h1
          · rw [h1]
            intro b hbb g hg
            rcases mem_mset hg with h2 | h2
            · exact h _ (mget_mem hm) b hbb g h2
            · intro heq
              have h3 : persona.uid = b := by rw [← heq, h2]
              exact hb (h3.symm ▸ hbb)
  | salir salaId uid =>
    show RegBlockedDisjoint (handleSalirSala st salaId uid).1
    cases hm : mget st salaId with
    | none => rw [handleSalirSala_noRoom hm]; exact h
    | some room =>
      by_cases hh : room.anfitrion.uid = uid
      · rw [handleSalirSala_host hm hh]
        intro p hp
        exact h p (mem_mdel hp).1
      · rw [handleSalirSala_guest hm hh]
        intro p hp
        rcases mem_mset hp with h1 | h1
        · exact h p h1
        · rw [h1]
          intro b hb g hg
          exact h _ (mget_mem hm) b hb g (mem_mdel hg).1
  | expulsar salaId uid =>
    show RegBlockedDisjoint (handleExpulsar st salaId uid).1
    cases hm : mget st salaId with
    | none => rw [handleExpulsar_noRoom hm]; exact h
    | some room =>
      cases hg : mget room.invitados uid with
      | none => rw [handleExpulsar_noGuest hm hg]; exact h
      | some invitado =>
        rw [handleExpulsar_guest hm hg]
        intro p hp
        rcases mem_mset hp with h1 | h1
        · exact h p h1
        · rw [h1]
          intro b hb g hgg
          exact h _ (mget_mem hm) b hb g (mem_mdel hgg).1
  | bloquear salaId uid =>
    show RegBlockedDisjoint (handleBloquear st salaId uid).1
    cases hm : mget st salaId with
    | none => rw [handleBloquear_noRoom hm]; exact h
    | some room =>
      rw [handleBloquear_eq hm]
      have hm2 := mget_mset_self st salaId
        { room with bloqueados := sadd room.bloqueados uid }
      cases hg : mget ({ room with
          bloqueados := sadd room.bloqueados uid }).invitados uid with
      | none =>
        rw [handleExpulsar_noGuest hm2 hg]
        intro p hp
        rcases mem_mset hp with h1 | h1
        · exact h p h1
        · rw [h1]
          intro b hb g hgg
          rcases mem_sadd hb with h2 | h2
          · exact h _ (mget_mem hm) b h2 g hgg
          · subst h2
            exact mget_eq_none hg g hgg
      | some invitado =>
        rw [handleExpulsar_guest hm2 hg, mset_mset_same]
        intro p hp
        rcases mem_mset hp with h1 | h1
        · exact h p h1
        · rw [h1]
          intro b hb g hgg
          obtain ⟨hgin, hgne⟩ := mem_mdel hgg
          rcases mem_sadd hb with h2 | h2
          · exact h _ (mget_mem hm) b h2 g hgin
          · subst h2
            exact hgne
  | subirCapacidad salaId =>
    show RegBlockedDisjoint (handleCambiarCapacidad st salaId 1).1
    cases hm : mget st salaId with
    | none => rw [handleCambiarCapacidad_noRoom hm]; exact h
    | some room =>
      rw [handleCambiarCapacidad_some hm]
      intro p hp
      rcases mem_mset hp with h1 | h1
      · exact h p h1
      · rw [h1]
        intro b hb g hg
        exact h _ (mget_mem hm) b hb g hg
  | bajarCapacidad salaId =>
    show RegBlockedDisjoint (handleCambiarCapacidad st salaId (-1)).1
    cases hm : mget st salaId with
    | none => rw [handleCambiarCapacidad_noRoom hm]; exact h
    | some room =>
      rw [handleCambiarCapacidad_some hm]
      intro p hp
      rcases mem_mset hp with h1 | h1
      · exact h p h1
      · rw [h1]
        intro b hb g hg
        exact h _ (mget_mem hm) b hb g hg
  | cambiarEstado salaId nuevo =>
    show RegBlockedDisjoint (handleCambiarEstado st salaId nuevo).1
    cases hm : mget st salaId with
    | none => rw [handleCambiarEstado_noRoom hm]; exact h
    | some room =>
      rw [handleCambiarEstado_some hm]
      intro p hp
      rcases mem_mset hp with h1 | h1
      · exact h p h1
      · rw [h1]
        intro b hb g hg
        exact h _ (mget_mem hm) b hb g hg

/-- Folding any operation list over a registry satisfying the
blocked-guest disjointness keeps it satisfied. -/
theorem regBlockedDisjoint_foldl :
    ∀ (ops : List Op) (st : Registry), RegBlockedDisjoint st →
      RegBlockedDisjoint (ops.foldl step st)
  | [], _, h => h
  | op :: rest, st, h =>
      regBlockedDisjoint_foldl rest (step st op) (blockedDisjoint_step h op)

/-- C1 (amended): for every sequence of create-room, join, leave,
kick, block, setCapacity and setState operations from the empty
registry, every reachable room satisfies the third conjunct of the
claimed invariant — no uid of the block set is simultaneously a key of
the guest set.  The other two conjuncts are refuted by
C1_counterexample: the host's uid can join its own room as a guest,
and bajar-capacidad can lower the capacity below the current guest
count. -/
theorem C1_blocked_disjoint_invariant (ops : List Op) :
    RegBlockedDisjoint (run ops) :=
  regBlockedDisjoint_foldl ops [] (fun p hp => absurd hp (List.not_mem_nil p))

/-! ### Sample data shared by the witnesses and counterexamples -/

/-- Sample host persona on socket 0. -/
def hostW : Persona := ⟨"h", "Hugo"⟩

/-- Sample guest persona stored on socket 1. -/
def guestA : Persona := ⟨"a", "Ana"⟩

/-- Sample guest persona stored on socket 2. -/
def guestB : Persona := ⟨"b", "Bea"⟩

/-- Sample room: host h on socket 0, guests a and b on sockets 1 and
2, capacity 3, uid z blocked. -/
def roomW : Room :=
  { estado := "waiting", capacidad := 3, video := false,
    anfitrion := hostW, anfitrionSocket := 0,
    invitados := [("a", ⟨guestA, 1⟩), ("b", ⟨guestB, 2⟩)],
    bloqueados := ["z"] }

/-- Sample room at capacity: one guest, capacity 1. -/
def roomF : Room :=
  { estado := "waiting", capacidad := 1, video := false,
    anfitrion := ⟨"h2", "Hans"⟩, anfitrionSocket := 5,
    invitados := [("c", ⟨⟨"c", "Cleo"⟩, 6⟩)],
    bloqueados := [] }

/-- Sample registry holding the two rooms above under ids r and f. -/
def regW : Registry := [("r", roomW), ("f", roomF)]

/-- Sample room with a single guest g on socket 1, host h on socket 0,
used for the leave scenarios. -/
def roomD : Room :=
  { estado := "waiting", capacidad := 2, video := false,
    anfitrion := hostW, anfitrionSocket := 0,
    invitados := [("g", ⟨⟨"g", "Gus"⟩, 1⟩)],
    bloqueados := [] }

/-- Registry holding roomD under id rd. -/
def regD : Registry := [("rd", roomD)]

/-! ### C2: join rejection order and rejection purity -/

/-- C2 (confirmed): handleUnirseSala checks the block set first — a
blocked uid is rejected with the blocked error regardless of the guest
count or capacity — then fullness; on either rejection the whole
registry, hence the room's guest set, block set, capacity and state,
is unchanged, and on acceptance the participant is stored in the guest
set of the room. -/
theorem C2_join_checks {st : Registry} {salaId : String} {room : Room}
    (hm : mget st salaId = some room) (persona : Persona) (sock : Nat) :
    (persona.uid ∈ room.bloqueados →
       handleUnirseSala st salaId persona sock
         = (st, [Event.send sock (Msg.error "Usuario bloqueado")]))
  ∧ (persona.uid ∉ room.bloqueados →
     room.capacidad ≤ (room.invitados.length : Int) →
       handleUnirseSala st salaId persona sock
         = (st, [Event.send sock (Msg.error "Sala llena")]))
  ∧ (persona.uid ∉ room.bloqueados →
     (room.invitados.length : Int) < room.capacidad →
       mget (handleUnirseSala st salaId persona sock).1 salaId
         = some { room with
             invitados := mset room.invitados persona.uid ⟨persona, sock⟩ }) :=
  ⟨fun hb => handleUnirseSala_blocked hm hb sock,
   fun hb hc => handleUnirseSala_full hm hb hc sock,
   fun hb hc => by
     rw [handleUnirseSala_ok hm hb hc]
     exact mget_mset_self _ _ _⟩

/-- Witness for C2: in room r of regW the blocked uid z is rejected as
blocked even though the room is below capacity, and in the full room f
an unblocked uid is rejected as full; both rejections leave the
registry unchanged. -/
theorem C2_join_checks_witness :
    mget regW "r" = some roomW
  ∧ handleUnirseSala regW "r" ⟨"z", "Zoe"⟩ 9
      = (regW, [Event.send 9 (Msg.error "Usuario bloqueado")])
  ∧ mget regW "f" = some roomF
  ∧ handleUnirseSala regW "f" ⟨"d", "Dan"⟩ 9
      = (regW, [Event.send 9 (Msg.error "Sala llena")]) :=
  ⟨rfl,
   (C2_join_checks (show mget regW "r" = some roomW from rfl) ⟨"z", "Zoe"⟩ 9).1
     (by decide),
   rfl,
   (C2_join_checks (show mget regW "f" = some roomF from rfl) ⟨"d", "Dan"⟩ 9).2.1
     (by decide) (by decide)⟩

/-! ### C3: leave with the host's uid -/

/-- C3 (counterexample): the minimal src/server.js variant's
handleLeaveRoom, invoked with the host's uid h on room rd (which has
one guest on socket 1), emits no events at all — the guest is neither
notified of the host leaving nor closed — and the room id still
resolves in the registry afterwards, to the unchanged room. -/
theorem C3_counterexample :
    (handleLeaveRoomV1 regD "rd" "h").2 = []
  ∧ mget (handleLeaveRoomV1 regD "rd" "h").1 "rd" = some roomD := by
  constructor
  · rfl
  · decide

/-- C3 (amended): part_000's handleSalirSala, invoked with the host's
uid, destroys the room — its id no longer resolves in the registry —
and sends every guest a salio-anfitrion notification and force-closes
its socket; this holds for every guest count including zero.  The
minimal src/server.js handleLeaveRoom variant does not do this (see
C3_counterexample): it only deletes the uid from the guest Map. -/
theorem C3_host_leave {st : Registry} {salaId : String} {room : Room}
    (hm : mget st salaId = some room) :
    mget (handleSalirSala st salaId room.anfitrion.uid).1 salaId = none
  ∧ ∀ g ∈ room.invitados,
      Event.send g.2.socket Msg.salioAnfitrion
          ∈ (handleSalirSala st salaId room.anfitrion.uid).2
      ∧ Event.close g.2.socket
          ∈ (handleSalirSala st salaId room.anfitrion.uid).2 := by
  rw [handleSalirSala_host hm rfl]
  refine ⟨mget_mdel_self st salaId, ?_⟩
  intro g hg
  constructor
  · exact List.mem_flatMap.mpr ⟨g, hg, by simp⟩
  · exact List.mem_flatMap.mpr ⟨g, hg, by simp⟩

/-- Witness for C3 (amended) at regD: after the host h leaves room rd,
the id rd no longer resolves and the single guest received the
notification and the close. -/
theorem C3_host_leave_witness :
    mget regD "rd" = some roomD
  ∧ (mget (handleSalirSala regD "rd" roomD.anfitrion.uid).1 "rd" = none
     ∧ ∀ g ∈ roomD.invitados,
         Event.send g.2.socket Msg.salioAnfitrion
             ∈ (handleSalirSala regD "rd" roomD.anfitrion.uid).2
         ∧ Event.close g.2.socket
             ∈ (handleSalirSala regD "rd" roomD.anfitrion.uid).2) :=
  ⟨rfl, C3_host_leave (show mget regD "rd" = some roomD from rfl)⟩

/-! ### C4: create on an existing id -/

/-- C4 (confirmed): creating a room whose id already maps to a live
room reports the conflict error to the creating socket only and
returns the registry unchanged, so the existing room keeps its entire
state and no room is added. -/
theorem C4_create_conflict {st : Registry} {d : CrearData} {room : Room}
    (hm : mget st d.id = some room) (sock : Nat) :
    handleCrearSala st d sock
      = (st, [Event.send sock (Msg.error "Sala ya existe")]) :=
  handleCrearSala_exists (by rw [hm]; rfl) sock

/-- Witness for C4: creating r again over regW yields only the
conflict error and the unchanged registry. -/
theorem C4_create_conflict_witness :
    mget regW "r" = some roomW
  ∧ handleCrearSala regW ⟨"r", "open", 5, false, ⟨"x", "Xena"⟩⟩ 7
      = (regW, [Event.send 7 (Msg.error "Sala ya existe")]) :=
  ⟨rfl, C4_create_conflict (show mget regW "r" = some roomW from rfl) 7⟩

/-! ### C5: block, its kick side effect, and block-then-join -/

/-- C5 (confirmed): handleBloquear adds the uid to the room's block
set and removes it from the guest Map — performing the kick when the
uid was a guest (the expelled guest is notified and closed), and
acting as a pure pre-block when it never joined, since deletion is
then the identity — and a join with that uid immediately afterwards is
rejected as blocked. -/
theorem C5_block_then_join {st : Registry} {salaId : String} {room : Room}
    (hm : mget st salaId = some room) (uid : String) :
    mget (handleBloquear st salaId uid).1 salaId
      = some { room with bloqueados := sadd room.bloqueados uid,
                         invitados := mdel room.invitados uid }
  ∧ uid ∈ sadd room.bloqueados uid
  ∧ (∀ invitado, mget room.invitados uid = some invitado →
       Event.send invitado.socket Msg.expulsado
           ∈ (handleBloquear st salaId uid).2
       ∧ Event.close invitado.socket ∈ (handleBloquear st salaId uid).2)
  ∧ ∀ (persona : Persona) (sock : Nat), persona.uid = uid →
      handleUnirseSala (handleBloquear st salaId uid).1 salaId persona sock
        = ((handleBloquear st salaId uid).1,
           [Event.send sock (Msg.error "Usuario bloqueado")]) := by
  have hm2 := mget_mset_self st salaId
    { room with bloqueados := sadd room.bloqueados uid }
  rw [handleBloquear_eq hm]
  cases hg : mget room.invitados uid with
  | none =>
    rw [handleExpulsar_noGuest hm2 hg]
    have hid : mdel room.invitados uid = room.invitados := mdel_eq_self hg
    refine ⟨?_, mem_sadd_self _ _, ?_, ?_⟩
    · rw [hid]
      exact mget_mset_self _ _ _
    · intro inv hinv
      cases hinv
    · intro persona sock hp
      refine handleUnirseSala_blocked (mget_mset_self _ _ _) ?_ sock
      rw [hp]
      exact mem_sadd_self _ _
  | some invitado =>
    rw [handleExpulsar_guest hm2 hg, mset_mset_same]
    refine ⟨mget_mset_self _ _ _, mem_sadd_self _ _, ?_, ?_⟩
    · intro inv hinv
      injection hinv with hinv
      subst hinv
      constructor
      · simp
      · simp
    · intro persona sock hp
      refine handleUnirseSala_blocked (mget_mset_self _ _ _) ?_ sock
      rw [hp]
      exact mem_sadd_self _ _

/-- Witness for C5 at regW: blocking the present guest a of room r
stores a in the block set, expels and closes it, and the immediate
re-join of a is rejected as blocked. -/
theorem C5_block_then_join_witness :
    mget regW "r" = some roomW
  ∧ (mget (handleBloquear regW "r" "a").1 "r"
       = some { roomW with bloqueados := sadd roomW.bloqueados "a",
                           invitados := mdel roomW.invitados "a" }
     ∧ "a" ∈ sadd roomW.bloqueados "a"
     ∧ (∀ invitado, mget roomW.invitados "a" = some invitado →
          Event.send invitado.socket Msg.expulsado
              ∈ (handleBloquear regW "r" "a").2
          ∧ Event.close invitado.socket ∈ (handleBloquear regW "r" "a").2)
     ∧ ∀ (persona : Persona) (sock : Nat), persona.uid = "a" →
         handleUnirseSala (handleBloquear regW "r" "a").1 "r" persona sock
           = ((handleBloquear regW "r" "a").1,
              [Event.send sock (Msg.error "Usuario bloqueado")])) :=
  ⟨rfl, C5_block_then_join (show mget regW "r" = some roomW from rfl) "a"⟩

/-! ### C6: fan-out of an accepted join -/

/-- C6 (counterexample): in the minimal src/server.js variant, an
accepted join only notifies the host.  Joining guest b (socket 2) to
room rd — which already holds guest g on socket 1 — stores b in the
guest Map, yet the only emitted event is the invitado-join message to
the host socket 0: the new guest receives nothing and the existing
guest receives nothing. -/
theorem C6_counterexample :
    mget (handleJoinRoomV1 regD "rd" guestB 2).1 "rd"
      = some { roomD with invitados := mset roomD.invitados "b" ⟨guestB, 2⟩ }
  ∧ (handleJoinRoomV1 regD "rd" guestB 2).2
      = [Event.send 0 (Msg.invitadoJoin guestB)] := by
  constructor
  · decide
  · decide

/-- C6 (amended): in part_000's handleUnirseSala an accepted join does
reach all three audiences — the host is notified of the new guest, the
new guest is confirmed with the room id, and every previously present
guest with a different uid is notified of the new guest.  The minimal
src/server.js handleJoinRoom variant notifies only the host (see
C6_counterexample). -/
theorem C6_join_fanout {st : Registry} {salaId : String} {room : Room}
    (hm : mget st salaId = some room) {persona : Persona}
    (hb : persona.uid ∉ room.bloqueados)
    (hc : (room.invitados.length : Int) < room.capacidad) (sock : Nat) :
    Event.send room.anfitrionSocket (Msg.invitadoUnido persona)
        ∈ (handleUnirseSala st salaId persona sock).2
  ∧ Event.send sock (Msg.unidoCorrectamente salaId)
        ∈ (handleUnirseSala st salaId persona sock).2
  ∧ ∀ g ∈ room.invitados, g.1 ≠ persona.uid →
      Event.send g.2.socket (Msg.invitadoUnido persona)
        ∈ (handleUnirseSala st salaId persona sock).2 := by
  rw [handleUnirseSala_ok hm hb hc]
  refine ⟨by simp, by simp, ?_⟩
  intro g hg hne
  have h1 : g ∈ (mset room.invitados persona.uid ⟨persona, sock⟩).filter
      (fun p => p.1 ≠ persona.uid) :=
    List.mem_filter.mpr ⟨mem_mset_of_ne hg hne, decide_eq_true hne⟩
  have h2 : Event.send g.2.socket (Msg.invitadoUnido persona)
      ∈ ((mset room.invitados persona.uid ⟨persona, sock⟩).filter
          (fun p => p.1 ≠ persona.uid)).map
          (fun p => Event.send p.2.socket (Msg.invitadoUnido persona)) :=
    List.mem_map.mpr ⟨g, h1, rfl⟩
  simp only [List.mem_cons]
  exact Or.inr (Or.inr h2)

/-- Witness for C6 (amended): joining guest b on socket 2 to room rd
of regD notifies the host socket, confirms the joiner, and notifies
the previously present guest g. -/
theorem C6_join_fanout_witness :
    mget regD "rd" = some roomD
  ∧ guestB.uid ∉ roomD.bloqueados
  ∧ (roomD.invitados.length : Int) < roomD.capacidad
  ∧ (Event.send roomD.anfitrionSocket (Msg.invitadoUnido guestB)
        ∈ (handleUnirseSala regD "rd" guestB 2).2
     ∧ Event.send 2 (Msg.unidoCorrectamente "rd")
        ∈ (handleUnirseSala regD "rd" guestB 2).2
     ∧ ∀ g ∈ roomD.invitados, g.1 ≠ guestB.uid →
        Event.send g.2.socket (Msg.invitadoUnido guestB)
          ∈ (handleUnirseSala regD "rd" guestB 2).2) :=
  ⟨rfl, by decide, by decide,
   C6_join_fanout (show mget regD "rd" = some roomD from rfl)
     (by decide) (by decide) 2⟩

/-! ### C7: kick notifications -/

/-- The socket an event is addressed to. -/
def Event.socketOf : Event → Nat
  | .send s _ => s
  | .close s => s

/-- C7 (counterexample): part_000's handleExpulsar never notifies the
host.  Kicking guest a from room r of regW removes it from the guest
Map, but the number of events addressed to the host socket
(roomW.anfitrionSocket = 0) is zero, where the claim requires the host
to receive exactly one guest-expelled notification. -/
theorem C7_counterexample :
    mget (handleExpulsar regW "r" "a").1 "r"
      = some { roomW with invitados := mdel roomW.invitados "a" }
  ∧ ((handleExpulsar regW "r" "a").2.countP
        (fun e => Event.socketOf e == roomW.anfitrionSocket)) = 0 := by
  constructor
  · decide
  · decide

/-- C7 (amended): the second src/server.js variant's handleKick has
the claimed behaviour: the kicked guest receives the expelled message
and is closed, the host receives exactly one guest-expelled
notification carrying the kicked uid, every other guest (with
pairwise-distinct sockets) receives exactly one, and the guest is
removed from the room.  part_000's handleExpulsar does all of this
except notifying the host (see C7_counterexample). -/
theorem C7_kick_full_variant {st : Registry} {salaId : String} {room : Room}
    (hm : mget st salaId = some room) {uid : String} {guest : Guest}
    (hg : mget room.invitados uid = some guest)
    (hnd : (room.invitados.map (fun p => p.2.socket)).Nodup) :
    Event.send guest.socket Msg.expulsado ∈ (handleKickV2 st salaId uid).2
  ∧ Event.close guest.socket ∈ (handleKickV2 st salaId uid).2
  ∧ (handleKickV2 st salaId uid).2.count
        (Event.send room.anfitrionSocket (Msg.invitadoExpulsadoHost uid)) = 1
  ∧ (∀ g ∈ room.invitados, g.1 ≠ uid →
       (handleKickV2 st salaId uid).2.count
           (Event.send g.2.socket (Msg.invitadoExpulsadoBloqueado uid)) = 1)
  ∧ mget (handleKickV2 st salaId uid).1 salaId
      = some { room with invitados := mdel room.invitados uid } := by
  rw [handleKickV2_guest hm hg]
  refine ⟨by simp, by simp, ?_, ?_, mget_mset_self _ _ _⟩
  · rw [List.count_append, List.count_append]
    have hA : (List.map
        (fun p => Event.send p.2.socket (Msg.invitadoExpulsadoBloqueado uid))
        (room.invitados.filter (fun p => p.1 ≠ uid))).count
          (Event.send room.anfitrionSocket (Msg.invitadoExpulsadoHost uid))
        = 0 := by
      rw [List.count_eq_zero]
      intro hmem
      rcases List.mem_map.mp hmem with ⟨p, _, hp⟩
      injection hp with h1 h2
      exact Msg.noConfusion h2
    rw [hA]
    simp
  · intro g hgm hne
    rw [List.count_append, List.count_append]
    have hrest1 : ([Event.send room.anfitrionSocket
        (Msg.invitadoExpulsadoHost uid)]).count
          (Event.send g.2.socket (Msg.invitadoExpulsadoBloqueado uid)) = 0 := by
      simp
    have hrest2 : ([Event.send guest.socket Msg.expulsado,
        Event.close guest.socket]).count
          (Event.send g.2.socket (Msg.invitadoExpulsadoBloqueado uid)) = 0 := by
      simp
    have hcnt : (List.map
        (fun p => Event.send p.2.socket (Msg.invitadoExpulsadoBloqueado uid))
        (room.invitados.filter (fun p => p.1 ≠ uid))).count
          (Event.send g.2.socket (Msg.invitadoExpulsadoBloqueado uid))
        = ((room.invitados.filter (fun p => p.1 ≠ uid)).map
            (fun p => p.2.socket)).count g.2.socket := by
      rw [List.count_eq_countP, List.count_eq_countP, List.countP_map,
        List.countP_map]
      apply List.countP_congr
      intro a _
      constructor
      · intro h1
        simp only [Function.comp_apply, beq_iff_eq, Event.send.injEq] at h1
        simp only [Function.comp_apply, beq_iff_eq]
        exact h1.1
      · intro h1
        simp only [Function.comp_apply, beq_iff_eq] at h1
        simp only [Function.comp_apply, beq_iff_eq, Event.send.injEq]
        exact ⟨h1, trivial⟩
    have hsub : List.Sublist (room.invitados.filter (fun p => p.1 ≠ uid))
        room.invitados := List.filter_sublist _
    have hnd2 : ((room.invitados.filter (fun p => p.1 ≠ uid)).map
        (fun p => p.2.socket)).Nodup :=
      hnd.sublist (hsub.map _)
    have hmemf : g ∈ room.invitados.filter (fun p => p.1 ≠ uid) :=
      List.mem_filter.mpr ⟨hgm, decide_eq_true hne⟩
    have hmem2 : g.2.socket ∈ (room.invitados.filter (fun p => p.1 ≠ uid)).map
        (fun p => p.2.socket) :=
      List.mem_map.mpr ⟨g, hmemf, rfl⟩
    rw [hcnt, List.count_eq_one_of_mem hnd2 hmem2, hrest1, hrest2]

/-- Witness for C7 (amended): kicking guest a from room r of regW via
the full-variant handleKick notifies and closes a, sends the host and
the remaining guest b exactly one guest-expelled notification each,
and removes a. -/
theorem C7_kick_full_variant_witness :
    mget regW "r" = some roomW
  ∧ mget roomW.invitados "a" = some ⟨guestA, 1⟩
  ∧ (roomW.invitados.map (fun p => p.2.socket)).Nodup
  ∧ (Event.send 1 Msg.expulsado ∈ (handleKickV2 regW "r" "a").2
     ∧ Event.close 1 ∈ (handleKickV2 regW "r" "a").2
     ∧ (handleKickV2 regW "r" "a").2.count
           (Event.send roomW.anfitrionSocket (Msg.invitadoExpulsadoHost "a")) = 1
     ∧ (∀ g ∈ roomW.invitados, g.1 ≠ "a" →
          (handleKickV2 regW "r" "a").2.count
              (Event.send g.2.socket (Msg.invitadoExpulsadoBloqueado "a")) = 1)
     ∧ mget (handleKickV2 regW "r" "a").1 "r"
         = some { roomW with invitados := mdel roomW.invitados "a" }) :=
  ⟨rfl, rfl, by decide,
   C7_kick_full_variant (show mget regW "r" = some roomW from rfl)
     (show mget roomW.invitados "a" = some ⟨guestA, 1⟩ from rfl) (by decide)⟩

/-! ### C8: operations on an unknown room id -/

/-- C8 (counterexample): on an unknown room id, kick, block, leave,
signal, set-capacity and set-state emit no events at all — the
requesting caller receives no error response — while the claim states
that every such operation surfaces an error to the caller.  (Only
join answers with an error; see C8_unknown_room.) -/
theorem C8_counterexample :
    handleExpulsar [] "r" "u" = ([], [])
  ∧ handleBloquear [] "r" "u" = ([], [])
  ∧ handleSalirSala [] "r" "u" = ([], [])
  ∧ handleSignal [] "r" "u" "v" "s" = ([], [])
  ∧ handleCambiarCapacidad [] "r" 1 = ([], [])
  ∧ handleCambiarEstado [] "r" "activa" = ([], []) :=
  ⟨rfl, rfl, rfl, rfl, rfl, rfl⟩

/-- C8 (amended): when the referenced room id is not in the registry,
join answers the requesting socket — and it alone — with the
room-does-not-exist error, while kick, block, leave, signal,
set-capacity and set-state return silently with no response to anyone;
in every case the registry is completely unchanged. -/
theorem C8_unknown_room {st : Registry} {salaId : String}
    (h : mget st salaId = none) :
    (∀ (persona : Persona) (sock : Nat),
       handleUnirseSala st salaId persona sock
         = (st, [Event.send sock (Msg.error "Sala no existe")]))
  ∧ (∀ uid, handleExpulsar st salaId uid = (st, []))
  ∧ (∀ uid, handleBloquear st salaId uid = (st, []))
  ∧ (∀ uid, handleSalirSala st salaId uid = (st, []))
  ∧ (∀ fromUid toUid s, handleSignal st salaId fromUid toUid s = (st, []))
  ∧ (∀ delta, handleCambiarCapacidad st salaId delta = (st, []))
  ∧ (∀ nuevo, handleCambiarEstado st salaId nuevo = (st, [])) :=
  ⟨fun persona sock => handleUnirseSala_none h persona sock,
   fun uid => handleExpulsar_noRoom h uid,
   fun uid => handleBloquear_noRoom h uid,
   fun uid => handleSalirSala_noRoom h uid,
   fun fromUid toUid s => handleSignal_noRoom h fromUid toUid s,
   fun delta => handleCambiarCapacidad_noRoom h delta,
   fun nuevo => handleCambiarEstado_noRoom h nuevo⟩

/-- Witness for C8 (amended) at regW and the unknown id x. -/
theorem C8_unknown_room_witness :
    mget regW "x" = none
  ∧ ((∀ (persona : Persona) (sock : Nat),
        handleUnirseSala regW "x" persona sock
          = (regW, [Event.send sock (Msg.error "Sala no existe")]))
     ∧ (∀ uid, handleExpulsar regW "x" uid = (regW, []))
     ∧ (∀ uid, handleBloquear regW "x" uid = (regW, []))
     ∧ (∀ uid, handleSalirSala regW "x" uid = (regW, []))
     ∧ (∀ fromUid toUid s, handleSignal regW "x" fromUid toUid s = (regW, []))
     ∧ (∀ delta, handleCambiarCapacidad regW "x" delta = (regW, []))
     ∧ (∀ nuevo, handleCambiarEstado regW "x" nuevo = (regW, []))) :=
  ⟨rfl, C8_unknown_room (show mget regW "x" = none from rfl)⟩

/-! ### C9: capacity change -/

/-- C9 (confirmed): for a room with capacity at least 1 and a delta of
plus or minus one, handleCambiarCapacidad stores max(1, capacity +
delta) as the new capacity — so the capacity never drops below 1 —
leaves the guest Map, block Set and state untouched (the stored room
differs only in the capacity field), and sends every guest the
actualizacion-sala notification. -/
theorem C9_set_capacity {st : Registry} {salaId : String} {room : Room}
    (hm : mget st salaId = some room) (delta : Int)
    (_hc : 1 ≤ room.capacidad) (_hd : delta = 1 ∨ delta = -1) :
    mget (handleCambiarCapacidad st salaId delta).1 salaId
      = some { room with capacidad := max 1 (room.capacidad + delta) }
  ∧ ∀ g ∈ room.invitados,
      Event.send g.2.socket Msg.actualizacionSala
        ∈ (handleCambiarCapacidad st salaId delta).2 := by
  rw [handleCambiarCapacidad_some hm]
  refine ⟨mget_mset_self _ _ _, ?_⟩
  intro g hg
  exact List.mem_map.mpr ⟨g, hg, rfl⟩

/-- Witness for C9: lowering the capacity of room r of regW (capacity
3, two guests) stores capacity 2 and notifies guests a and b. -/
theorem C9_set_capacity_witness :
    mget regW "r" = some roomW
  ∧ 1 ≤ roomW.capacidad
  ∧ ((-1 : Int) = 1 ∨ (-1 : Int) = -1)
  ∧ (mget (handleCambiarCapacidad regW "r" (-1)).1 "r"
       = some { roomW with capacidad := max 1 (roomW.capacidad + (-1)) }
     ∧ ∀ g ∈ roomW.invitados,
         Event.send g.2.socket Msg.actualizacionSala
           ∈ (handleCambiarCapacidad regW "r" (-1)).2) :=
  ⟨rfl, by decide, Or.inr rfl,
   C9_set_capacity (show mget regW "r" = some roomW from rfl) (-1)
     (by decide) (Or.inr rfl)⟩

/-! ### C10: re-join of an already present uid -/

/-- C10 (confirmed): a second join by a uid that is already a guest
key and is not blocked is not treated as a duplicate: when the guest
count is at or above capacity it is rejected as full even though
admitting it would not grow the Map, and otherwise the stored entry is
overwritten with the new persona and transport handle, the guest count
is unchanged, and the full accept fan-out (host notification, joiner
confirmation, notification of every other guest) is re-run. -/
theorem C10_rejoin {st : Registry} {salaId : String} {room : Room}
    (hm : mget st salaId = some room) {persona : Persona} {g0 : Guest}
    (hb : persona.uid ∉ room.bloqueados)
    (hg : mget room.invitados persona.uid = some g0) (sock : Nat) :
    (room.capacidad ≤ (room.invitados.length : Int) →
       handleUnirseSala st salaId persona sock
         = (st, [Event.send sock (Msg.error "Sala llena")]))
  ∧ ((room.invitados.length : Int) < room.capacidad →
       mget (handleUnirseSala st salaId persona sock).1 salaId
         = some { room with
             invitados := mset room.invitados persona.uid ⟨persona, sock⟩ }
     ∧ (mset room.invitados persona.uid ⟨persona, sock⟩).length
         = room.invitados.length
     ∧ mget (mset room.invitados persona.uid ⟨persona, sock⟩) persona.uid
         = some ⟨persona, sock⟩
     ∧ Event.send room.anfitrionSocket (Msg.invitadoUnido persona)
         ∈ (handleUnirseSala st salaId persona sock).2
     ∧ Event.send sock (Msg.unidoCorrectamente salaId)
         ∈ (handleUnirseSala st salaId persona sock).2
     ∧ ∀ g ∈ room.invitados, g.1 ≠ persona.uid →
         Event.send g.2.socket (Msg.invitadoUnido persona)
           ∈ (handleUnirseSala st salaId persona sock).2) := by
  constructor
  · intro hc
    exact handleUnirseSala_full hm hb hc sock
  · intro hc
    rw [handleUnirseSala_ok hm hb hc]
    refine ⟨mget_mset_self _ _ _, length_mset hg _, mget_mset_self _ _ _,
      by simp, by simp, ?_⟩
    intro g hgm hne
    have h1 : g ∈ (mset room.invitados persona.uid ⟨persona, sock⟩).filter
        (fun p => p.1 ≠ persona.uid) :=
      List.mem_filter.mpr ⟨mem_mset_of_ne hgm hne, decide_eq_true hne⟩
    have h2 : Event.send g.2.socket (Msg.invitadoUnido persona)
        ∈ ((mset room.invitados persona.uid ⟨persona, sock⟩).filter
            (fun p => p.1 ≠ persona.uid)).map
            (fun p => Event.send p.2.socket (Msg.invitadoUnido persona)) :=
      List.mem_map.mpr ⟨g, h1, rfl⟩
    simp only [List.mem_cons]
    exact Or.inr (Or.inr h2)

/-- Witness for C10: guest a of room r of regW re-joins on a new
socket 9; the room is below capacity, so the entry is overwritten with
socket 9, the guest count stays 2, and the fan-out re-runs. -/
theorem C10_rejoin_witness :
    mget regW "r" = some roomW
  ∧ guestA.uid ∉ roomW.bloqueados
  ∧ mget roomW.invitados guestA.uid = some ⟨guestA, 1⟩
  ∧ ((roomW.capacidad ≤ (roomW.invitados.length : Int) →
        handleUnirseSala regW "r" guestA 9
          = (regW, [Event.send 9 (Msg.error "Sala llena")]))
     ∧ ((roomW.invitados.length : Int) < roomW.capacidad →
          mget (handleUnirseSala regW "r" guestA 9).1 "r"
            = some { roomW with
                invitados := mset roomW.invitados guestA.uid ⟨guestA, 9⟩ }
        ∧ (mset roomW.invitados guestA.uid ⟨guestA, 9⟩).length
            = roomW.invitados.length
        ∧ mget (mset roomW.invitados guestA.uid ⟨guestA, 9⟩) guestA.uid
            = some ⟨guestA, 9⟩
        ∧ Event.send roomW.anfitrionSocket (Msg.invitadoUnido guestA)
            ∈ (handleUnirseSala regW "r" guestA 9).2
        ∧ Event.send 9 (Msg.unidoCorrectamente "r")
            ∈ (handleUnirseSala regW "r" guestA 9).2
        ∧ ∀ g ∈ roomW.invitados, g.1 ≠ guestA.uid →
            Event.send g.2.socket (Msg.invitadoUnido guestA)
              ∈ (handleUnirseSala regW "r" guestA 9).2)) :=
  ⟨rfl, by decide, rfl,
   C10_rejoin (show mget regW "r" = some roomW from rfl) (by decide)
     (show mget roomW.invitados guestA.uid = some ⟨guestA, 1⟩ from rfl) 9⟩
